import Mathlib

/-!
Shallow embedding of the droidvold Disk/Volume core
(src/Disk.cpp, src/PublicVolume.cpp, src/CommandListener.cpp).

External collaborators (filesystem helpers, sysfs reads, the partition
dumper subprocess, the mount table) are modelled as environment records;
each field stands for the result of one external call, so that every
control path of the translated functions is driven by explicit data.
-/

namespace Droidvold

/-! ### C library string helpers (strtol / atoi / strcasecmp) -/

/-- Value of one digit character in the given base, as `strtol` accepts it. -/
def digitVal (base : Nat) (c : Char) : Option Nat :=
  let v : Option Nat :=
    if '0' ≤ c ∧ c ≤ '9' then some (c.toNat - '0'.toNat)
    else if 'a' ≤ c ∧ c ≤ 'z' then some (c.toNat - 'a'.toNat + 10)
    else if 'A' ≤ c ∧ c ≤ 'Z' then some (c.toNat - 'A'.toNat + 10)
    else none
  match v with
  | some n => if n < base then some n else none
  | none => none

/-- Accumulate leading digits of `cs` in the given base, stopping at the
first non-digit, like the digit loop of `strtol`. -/
def digitsAcc (base : Nat) : List Char → Nat → Nat
  | [], acc => acc
  | c :: cs, acc =>
    match digitVal base c with
    | some d => digitsAcc base cs (acc * base + d)
    | none => acc

def isSpaceC (c : Char) : Bool :=
  c == ' ' || c == '\t' || c == '\n' || c == '\r'

/-- Digit part of `strtol`, including the optional `0x` prefix in base 16. -/
def strtolBody (base : Nat) (cs : List Char) : Nat :=
  if base == 16 then
    match cs with
    | '0' :: 'x' :: rest => digitsAcc 16 rest 0
    | '0' :: 'X' :: rest => digitsAcc 16 rest 0
    | _ => digitsAcc 16 cs 0
  else digitsAcc base cs 0

/-- `strtol(s, nullptr, base)`: skip whitespace, optional sign, digits. -/
def strtolChars (base : Nat) (cs : List Char) : Int :=
  let cs := cs.dropWhile isSpaceC
  match cs with
  | '-' :: rest => -(Int.ofNat (strtolBody base rest))
  | '+' :: rest => Int.ofNat (strtolBody base rest)
  | _ => Int.ofNat (strtolBody base cs)

def strtol10 (s : String) : Int := strtolChars 10 s.data

def strtol16 (s : String) : Int := strtolChars 16 s.data

def atoi (s : String) : Int := strtol10 s

/-- `strcasecmp(a, b) == 0`: equality after lowering both sides. -/
def strcaseEq (a b : String) : Bool :=
  a.data.map Char.toLower == b.data.map Char.toLower

/-- Truncation of a C `int` value to `int8_t`, as in
`int8_t maxMinors = getMaxMinors();`. -/
def int8ofInt (x : Int) : Int :=
  let r := x % 256
  if r < 128 then r else r - 256

/-- `strncmp(s, "ext", 3) == 0`. -/
def extPre (s : String) : Bool := s.take 3 == "ext"

/-! ### PublicVolume (src/PublicVolume.cpp) -/

/-- Broadcast response codes used by the volume paths (ResponseCode.h). -/
inductive RCode
  | volumeFsTypeChanged
  | volumeFsUuidChanged
  | volumeFsLabelChanged
deriving DecidableEq, Repr

/-- Observable side effects of the PublicVolume operations. `sleep` exists
in the vocabulary so that its absence from every trace is expressible. -/
inductive MEffect
  | broadcast (code : RCode) (value : String)
  | sleep
  | checkMounted (path : String)
  | fsCheck (fs : String)
  | ext4Check (dev : String) (target : String)
  | prepareDir (path : String)
  | fsMount (fs : String) (dev : String) (target : String)
  | chownRecursive (path : String)
  | restorecon (path : String)
deriving DecidableEq, Repr

def MEffect.isBroadcast : MEffect → Bool
  | .broadcast _ _ => true
  | _ => false

/-- State of one PublicVolume object. The two constructors of the C++
class differ only in `justPhysicalDev` and in how the id is formed. -/
structure PubVol where
  devMajor : Nat
  devMinor : Nat
  justPhysicalDev : Bool
  physName : String
  fusePid : Int
  fsType : String
  fsUuid : String
  fsLabel : String
  rawPath : String
  internalPath : String
  path : String
  srMounted : Bool
deriving DecidableEq, Repr

/-- `getId()`: `"public:<maj>,<min>"` for a partition volume, the raw
physical device name otherwise. -/
def getId (v : PubVol) : String :=
  if v.justPhysicalDev then v.physName
  else "public:" ++ toString v.devMajor ++ "," ++ toString v.devMinor

/-- `mDevPath` as set by the constructors. -/
def volDevPath (v : PubVol) : String :=
  if v.justPhysicalDev then "/dev/block/" ++ v.physName
  else "/dev/block/droidvold/" ++ getId v

/-- Results of the external calls made by `doMount` / `doFormat`. -/
structure VolEnv where
  probeStatus : Int
  probeFsType : String
  probeUuid : String
  probeLabel : String
  mountpointMounted : String → Bool
  vfatCheckRes : Int
  ntfsCheckRes : Int
  exfatCheckRes : Int
  hfsCheckRes : Int
  isoCheckRes : Int
  prepareDirRes : Int
  logicalPartDev : Option String
  ext4CheckRes : Int
  vfatMountRes : Int
  ntfsMountRes : Int
  exfatMountRes : Int
  ext4MountRes : Int
  hfsMountRes : Int
  isoMountRes : Int
  chownRes : Int
  wipeRes : Int
  formatRes : Int
  errnoVal : Int

/-- `PublicVolume::readMetadata`: probe, then patch an empty UUID to
`"sr0"` (major 11) or `"fakeUuid"`, then broadcast type/uuid/label. -/
def readMetadata (env : VolEnv) (v : PubVol) : PubVol × Int × List MEffect :=
  let v1 := { v with fsType := env.probeFsType, fsUuid := env.probeUuid,
                     fsLabel := env.probeLabel }
  let e1 : MEffect := .broadcast .volumeFsTypeChanged v1.fsType
  let v2 :=
    if v1.fsUuid == "" then
      if v1.devMajor == 11 then { v1 with fsUuid := "sr0" }
      else { v1 with fsUuid := "fakeUuid" }
    else v1
  (v2, env.probeStatus,
   [e1, .broadcast .volumeFsUuidChanged v2.fsUuid,
    .broadcast .volumeFsLabelChanged v2.fsLabel])

structure MountOut where
  status : Int
  vol : PubVol
  effects : List MEffect
deriving Repr

/-- The pre-mount filesystem-check dispatch of `doMount` (the chain that
fills `checkStatus`): ext* is deferred, iso/udf go to the iso9660
helper, anything else keeps the initial `-1`. -/
def checkStatusOf (env : VolEnv) (t : String) : Int :=
  if t == "vfat" then env.vfatCheckRes
  else if t == "ntfs" then env.ntfsCheckRes
  else if t == "exfat" then env.exfatCheckRes
  else if extPre t then 0
  else if t == "hfs" then env.hfsCheckRes
  else if t == "iso9660" || t == "udf" then env.isoCheckRes
  else -1

/-- The mount dispatch of `doMount` (the chain that fills
`mountStatus`). -/
def mountStatusOf (env : VolEnv) (t : String) : Int :=
  if t == "vfat" then env.vfatMountRes
  else if t == "ntfs" then env.ntfsMountRes
  else if t == "exfat" then env.exfatMountRes
  else if extPre t then env.ext4MountRes
  else if t == "hfs" then env.hfsMountRes
  else if t == "iso9660" || t == "udf" then env.isoMountRes
  else -1

/-- The `setInternalPath` / `setPath` pair of `doMount`. -/
def setPaths (v : PubVol) : PubVol :=
  { v with internalPath := v.rawPath, path := v.rawPath }

/-- Continuation of `doMount` from the `isMountpointMounted` check on:
the filesystem check, mount-point preparation, the mount itself and the
ext* ownership fixups; `v.rawPath` has already been set. -/
def doMountAt (env : VolEnv) (v : PubVol) (evs0 : List MEffect) : MountOut :=
  let evs := evs0 ++ [.checkMounted v.rawPath]
  if env.mountpointMounted v.rawPath then
    { status := -5, vol := v, effects := evs }
  else
    let evs := evs ++ [.fsCheck v.fsType]
    if !(checkStatusOf env v.fsType == 0) then
      { status := -5, vol := v, effects := evs }
    else
      let v := setPaths v
      let evs := evs ++ [.prepareDir v.rawPath]
      if !(env.prepareDirRes == 0) then
        { status := -env.errnoVal, vol := v, effects := evs }
      else
        let logicRes : Option String :=
          if !v.justPhysicalDev && (v.fsType == "ntfs" || v.fsType == "exfat")
          then env.logicalPartDev
          else some (volDevPath v)
        match logicRes with
        | none => { status := -env.errnoVal, vol := v, effects := evs }
        | some logicPath =>
          let evs :=
            if extPre v.fsType then evs ++ [.ext4Check logicPath v.rawPath]
            else evs
          let v :=
            if (v.fsType == "iso9660" || v.fsType == "udf") &&
               mountStatusOf env v.fsType == 0
            then { v with srMounted := true } else v
          let evs := evs ++ [.fsMount v.fsType logicPath v.rawPath]
          if !(mountStatusOf env v.fsType == 0) then
            { status := -5, vol := v, effects := evs }
          else if extPre v.fsType then
            let evs := evs ++ [.chownRecursive v.rawPath]
            if !(env.chownRes == 0) then
              { status := env.chownRes, vol := v, effects := evs }
            else
              { status := 0, vol := v, effects := evs ++ [.restorecon v.rawPath] }
          else
            { status := 0, vol := v, effects := evs }

/-- `PublicVolume::doMount`, with every external call routed through
`env`. `-5` is `-EIO`; `-env.errnoVal` stands for `-errno`. -/
def doMount (env : VolEnv) (v0 : PubVol) : MountOut :=
  let m := readMetadata env v0
  let v := m.1
  let evs := m.2.2
  if !(v.fsType == "vfat" || v.fsType == "ntfs" || v.fsType == "exfat" ||
       extPre v.fsType || v.fsType == "hfs" || v.fsType == "iso9660" ||
       v.fsType == "udf") then
    { status := -5, vol := v, effects := evs }
  else if !v.justPhysicalDev && v.fsType == "vfat" then
    { status := 0, vol := v, effects := evs }
  else
    let stableName := if !(v.fsUuid == "") then v.fsUuid else getId v
    doMountAt env { v with rawPath := "/mnt/media_rw/" ++ stableName } evs

/-- Side effects of `doUnmount` / `doFormat`. -/
inductive UEffect
  | killProcessesUsingPath (path : String)
  | unmountLoopIfNeed (name : String)
  | forceUnmount (path : String)
  | killFuse (pid : Int)
  | rmdir (path : String)
  | wipeBlockDevice (dev : String)
  | vfatFormat (dev : String)
deriving DecidableEq, Repr

structure UnmountOut where
  status : Int
  vol : PubVol
  effects : List UEffect
deriving Repr

/-- `PublicVolume::doUnmount`. The return values of `ForceUnmount`,
`kill`/`waitpid` and `rmdir` are not inspected by the source, so the
environment results do not influence the outcome; `hasVirtualCdrom`
reflects the compile-time `HAS_VIRTUAL_CDROM` flag. -/
def doUnmount (hasVirtualCdrom : Bool) (v0 : PubVol) : UnmountOut :=
  let evs := [UEffect.killProcessesUsingPath v0.path]
  let evs :=
    if hasVirtualCdrom then
      let stableName := if !(v0.fsUuid == "") then v0.fsUuid else getId v0
      evs ++ [UEffect.unmountLoopIfNeed stableName]
    else evs
  let evs := evs ++ [UEffect.forceUnmount v0.rawPath]
  let p := if v0.fusePid > 0 then
    (evs ++ [UEffect.killFuse v0.fusePid], { v0 with fusePid := 0 })
  else (evs, v0)
  let evs := p.1 ++ [UEffect.rmdir v0.rawPath]
  { status := 0, vol := { p.2 with rawPath := "" }, effects := evs }

structure FormatOut where
  status : Int
  effects : List UEffect
deriving Repr

/-- `PublicVolume::doFormat`: only `"vfat"` and `"auto"` are accepted;
the wipe failure is only warned about; `-22` is `-EINVAL`. -/
def doFormat (env : VolEnv) (v : PubVol) (fsType : String) : FormatOut :=
  if fsType == "vfat" || fsType == "auto" then
    let evs := [UEffect.wipeBlockDevice (volDevPath v), UEffect.vfatFormat (volDevPath v)]
    if !(env.formatRes == 0) then { status := -env.errnoVal, effects := evs }
    else { status := 0, effects := evs }
  else
    { status := -22, effects := [] }

/-! ### Disk (src/Disk.cpp) -/

/-- Partition table mode parsed from the dumper output. -/
inductive Table
  | kUnknown
  | kMbr
  | kGpt
deriving DecidableEq, Repr

def kGptBasicData : String := "EBD0A0A2-B9E5-4433-87C0-68B6B72699C7"

/-- The SCSI block majors enumerated at the top of Disk.cpp
(`kMajorBlockScsiA` .. `kMajorBlockScsiP`). -/
def isScsiMajor (m : Nat) : Bool :=
  m == 8 || m == 65 || m == 66 || m == 67 || m == 68 || m == 69 || m == 70 ||
  m == 71 || m == 128 || m == 129 || m == 130 || m == 131 || m == 132 ||
  m == 133 || m == 134 || m == 135

/-- State of one Disk object that `readPartitions` depends on. -/
structure DiskSt where
  devMajor : Nat
  devMinor : Nat
  srdisk : Bool
  justPartitioned : Bool
deriving DecidableEq, Repr

/-- Results of the external calls made by `readPartitions`. The dumper
output is the token list of each stdout line, as `strtok` with
`" \t\n"` would deliver them. -/
structure DiskEnv where
  runningInEmulator : Bool
  mmcMinorsFile : Option String
  sgdiskStatus : Int
  sgdiskOutput : List (List String)
  justPhysical : Option String
  physicalDevOverride : Int → Nat × Nat → Nat × Nat
  wholeDiskProbeOk : Bool
  errnoVal : Int

/-- `isVirtioBlkDevice`: emulator and an experimental block major. -/
def isVirtioBlkDevice (env : DiskEnv) (m : Nat) : Bool :=
  env.runningInEmulator && 240 ≤ m && m ≤ 254

/-- `Disk::getMaxMinors`: 31 for the SCSI majors, the sysfs value for the
MMC major (179), 15 for virtio-blk, `-ENOTSUP` (= `-95`) otherwise;
a failed sysfs read yields `-errno`. -/
def getMaxMinors (env : DiskEnv) (m : Nat) : Int :=
  if isScsiMajor m then 31
  else if m == 179 then
    match env.mmcMinorsFile with
    | none => -env.errnoVal
    | some s => atoi s
  else if isVirtioBlkDevice env m then 15
  else -95

/-- Observable side effects of `readPartitions`. -/
inductive DEffect
  | destroyAllVolumes
  | sgdiskInvoked
  | volumeCreated (ma mi : Nat)
  | physVolumeCreated (name : String)
  | warnIgnoredPart (i : Int)
  | warnUnsupportedMbrType
  | diskScanned
deriving DecidableEq, Repr

def DEffect.isCreation : DEffect → Bool
  | .volumeCreated _ _ => true
  | .physVolumeCreated _ => true
  | _ => false

/-- Number of volume-creation effects in a trace. -/
def numCreated (evs : List DEffect) : Nat :=
  (evs.filter DEffect.isCreation).length

/-- The creation effects of a trace, in order. -/
def creations (evs : List DEffect) : List DEffect :=
  evs.filter DEffect.isCreation

/-- Loop state of the line scan in `readPartitions`; `stopped` records
the `break` taken on the just-physical-device branch. -/
structure ScanSt where
  table : Table
  foundParts : Bool
  events : List DEffect
  stopped : Bool
deriving DecidableEq, Repr

/-- One iteration of the `for (auto line : output)` loop of
`Disk::readPartitions`, on the token list of one line. -/
def processLine (env : DiskEnv) (d : DiskSt) (maxMinors : Int)
    (st : ScanSt) (line : List String) : ScanSt :=
  if st.stopped then st else
  match line.head? with
  | none => st
  | some tok =>
    if tok == "DISK" then
      let ty := (line.get? 1).getD ""
      if ty == "mbr" then { st with table := Table.kMbr }
      else if ty == "gpt" then { st with table := Table.kGpt }
      else st
    else if tok == "PART" then
      let st := { st with foundParts := true }
      let i := strtol10 ((line.get? 1).getD "")
      if i ≤ 0 || maxMinors < i then
        { st with events := st.events ++ [DEffect.warnIgnoredPart i] }
      else
        let partDev : Nat × Nat := (d.devMajor, d.devMinor + i.toNat)
        match st.table with
        | Table.kMbr =>
          match env.justPhysical with
          | some name =>
            { st with events := st.events ++ [DEffect.physVolumeCreated name],
                      stopped := true }
          | none =>
            let partDev := if 15 < i then env.physicalDevOverride i partDev else partDev
            let tyv := strtol16 ((line.get? 2).getD "")
            if tyv == 0x06 || tyv == 0x0b || tyv == 0x0c || tyv == 0x0e || tyv == 0x07 then
              { st with events := st.events ++ [DEffect.volumeCreated partDev.1 partDev.2] }
            else
              { st with events := st.events ++
                  [DEffect.volumeCreated partDev.1 partDev.2,
                   DEffect.warnUnsupportedMbrType] }
        | Table.kGpt =>
          let typeGuid := (line.get? 2).getD ""
          if strcaseEq typeGuid kGptBasicData then
            { st with events := st.events ++ [DEffect.volumeCreated partDev.1 partDev.2] }
          else st
        | Table.kUnknown => st
    else st

structure ScanOut where
  status : Int
  justPartitioned : Bool
  events : List DEffect
deriving Repr

/-- Scan state at entry of the line loop: children destroyed, dumper
invoked, no table mode, no `PART` record seen yet. -/
def scanInit : ScanSt :=
  { table := Table.kUnknown, foundParts := false,
    events := [DEffect.destroyAllVolumes, DEffect.sgdiskInvoked],
    stopped := false }

/-- The line loop of `readPartitions` over the dumper output, with the
`int8_t`-truncated `maxMinors` budget. -/
def scanRun (env : DiskEnv) (d : DiskSt) : ScanSt :=
  env.sgdiskOutput.foldl
    (processLine env d (int8ofInt (getMaxMinors env d.devMajor))) scanInit

/-- `Disk::readPartitions`. `-95` is `-ENOTSUP`. The srdisk shortcut and
the negative-`maxMinors` shortcut return before the dumper is invoked;
every other path emits `DiskScanned` and clears `justPartitioned`. -/
def readPartitions (env : DiskEnv) (d : DiskSt) : ScanOut :=
  if d.srdisk then
    { status := 0, justPartitioned := d.justPartitioned,
      events := [DEffect.volumeCreated d.devMajor d.devMinor] }
  else
    let maxMinors := int8ofInt (getMaxMinors env d.devMajor)
    if maxMinors < 0 then
      { status := -95, justPartitioned := d.justPartitioned, events := [] }
    else
      if !(env.sgdiskStatus == 0) then
        { status := env.sgdiskStatus, justPartitioned := false,
          events := scanInit.events ++ [DEffect.diskScanned] }
      else
        let st := scanRun env d
        let st :=
          if st.table == Table.kUnknown || !st.foundParts then
            if env.wholeDiskProbeOk then
              match env.justPhysical with
              | some name =>
                { st with events := st.events ++ [DEffect.physVolumeCreated name] }
              | none =>
                { st with events := st.events ++
                    [DEffect.volumeCreated d.devMajor d.devMinor] }
            else st
          else st
        { status := 0, justPartitioned := false,
          events := st.events ++ [DEffect.diskScanned] }

/-! ### CommandListener (src/CommandListener.cpp) -/

/-- Trace atoms of a command handler: lock acquisition/release of the
Volume Manager mutex, manager/volume operations, and socket replies. -/
inductive Action
  | acquireLock
  | releaseLock
  | vmOp (name : String)
  | reply (code : Nat)
deriving DecidableEq, Repr

def Action.isVmOp : Action → Bool
  | .vmOp _ => true
  | _ => false

/-- Response codes used by the command handlers (ResponseCode.h). -/
def rcCommandOkay : Nat := 200
def rcCommandSyntaxError : Nat := 500
def rcOperationFailed : Nat := 400

/-- Environment for the command layer: whether `findVolume` resolves an
id, and the numeric result every invoked operation returns. -/
structure CmdEnv where
  knownVolume : String → Bool
  opResult : Int

/-- `sendGenericOkFail`. -/
def okFailReply (cond : Int) : Action :=
  if cond == 0 then Action.reply rcCommandOkay else Action.reply rcOperationFailed

/-- Body of `CommandListener::VolumeCmd::runCommand` executed inside the
`std::lock_guard` scope (argv[0] is `"volume"`). -/
def volumeCmdBody (env : CmdEnv) (argv : List String) : List Action :=
  let argc := argv.length
  let cmd := (argv.get? 1).getD ""
  if cmd == "reset" then [Action.vmOp "reset", okFailReply env.opResult]
  else if cmd == "shutdown" then [Action.vmOp "shutdown", okFailReply env.opResult]
  else if cmd == "debug" then [Action.vmOp "setDebug", okFailReply env.opResult]
  else if cmd == "mkdirs" && 2 < argc then
    [Action.vmOp "mkdirs", okFailReply env.opResult]
  else if cmd == "mount" && 2 < argc then
    let id := (argv.get? 2).getD ""
    if !env.knownVolume id then
      [Action.vmOp "findVolume", Action.reply rcCommandSyntaxError]
    else
      [Action.vmOp "findVolume", Action.vmOp "setMountFlags",
       Action.vmOp "setMountUserId", Action.vmOp "mount",
       okFailReply env.opResult]
  else if cmd == "unmount" && 2 < argc then
    let id := (argv.get? 2).getD ""
    if !env.knownVolume id then
      [Action.vmOp "findVolume", Action.reply rcCommandSyntaxError]
    else [Action.vmOp "findVolume", Action.vmOp "unmount", okFailReply env.opResult]
  else if cmd == "format" && 3 < argc then
    let id := (argv.get? 2).getD ""
    if !env.knownVolume id then
      [Action.vmOp "findVolume", Action.reply rcCommandSyntaxError]
    else [Action.vmOp "findVolume", Action.vmOp "format", okFailReply env.opResult]
  else [Action.reply rcCommandSyntaxError]

/-- `CommandListener::VolumeCmd::runCommand`: a missing verb is answered
before the lock; everything else runs inside the `lock_guard`. -/
def volumeRunCommand (env : CmdEnv) (argv : List String) : List Action :=
  if argv.length < 2 then [Action.reply rcCommandSyntaxError]
  else Action.acquireLock :: volumeCmdBody env argv ++ [Action.releaseLock]

/-- `CommandListener::LoopCmd::runCommand`: dispatches to
`vm->mountloop` / `vm->unmountloop` without touching the manager lock. -/
def loopRunCommand (env : CmdEnv) (argv : List String) : List Action :=
  let argc := argv.length
  if argc < 2 then [Action.reply rcCommandSyntaxError]
  else if (argv.get? 1).getD "" == "mount" then
    if !(argc == 3) then [Action.reply rcCommandSyntaxError]
    else
      [Action.vmOp "mountloop",
       if env.opResult == 0 then Action.reply rcCommandOkay
       else Action.reply rcOperationFailed]
  else if (argv.get? 1).getD "" == "unmount" then
    if argc < 2 || 3 < argc then [Action.reply rcCommandSyntaxError]
    else
      [Action.vmOp "unmountloop",
       if env.opResult == 0 then Action.reply rcCommandOkay
       else Action.reply rcOperationFailed]
  else [Action.reply rcCommandSyntaxError]

/-- A trace performs all manager operations under the lock when every
`vmOp` occurs at positive lock depth. -/
def opsLockedFrom : Nat → List Action → Bool
  | _, [] => true
  | depth, Action.acquireLock :: rest => opsLockedFrom (depth + 1) rest
  | depth, Action.releaseLock :: rest => opsLockedFrom (depth - 1) rest
  | depth, Action.vmOp _ :: rest => decide (0 < depth) && opsLockedFrom depth rest
  | depth, Action.reply _ :: rest => opsLockedFrom depth rest

def opsLocked (trace : List Action) : Bool := opsLockedFrom 0 trace

/-! ### Shared concrete fixtures -/

/-- A partition-derived PublicVolume on device `(8,17)`, as built by
`PublicVolume::PublicVolume(dev_t)`. -/
def baseVol : PubVol :=
  { devMajor := 8, devMinor := 17, justPhysicalDev := false, physName := "",
    fusePid := 0, fsType := "", fsUuid := "", fsLabel := "", rawPath := "",
    internalPath := "", path := "", srMounted := false }

/-- A benign environment: every helper call succeeds. -/
def baseVolEnv : VolEnv :=
  { probeStatus := 0, probeFsType := "vfat", probeUuid := "", probeLabel := "",
    mountpointMounted := fun _ => false, vfatCheckRes := 0, ntfsCheckRes := 0,
    exfatCheckRes := 0, hfsCheckRes := 0, isoCheckRes := 0, prepareDirRes := 0,
    logicalPartDev := some "/dev/block/sda17", ext4CheckRes := 0,
    vfatMountRes := 0, ntfsMountRes := 0, exfatMountRes := 0, ext4MountRes := 0,
    hfsMountRes := 0, isoMountRes := 0, chownRes := 0, wipeRes := 0,
    formatRes := 0, errnoVal := 13 }

/-- A SCSI disk `(8,16)` that is not optical. -/
def baseDisk : DiskSt :=
  { devMajor := 8, devMinor := 16, srdisk := false, justPartitioned := true }

/-- A benign disk environment with an empty dumper output. -/
def baseDiskEnv : DiskEnv :=
  { runningInEmulator := false, mmcMinorsFile := some "8", sgdiskStatus := 0,
    sgdiskOutput := [], justPhysical := none,
    physicalDevOverride := fun _ p => p, wholeDiskProbeOk := true,
    errnoVal := 13 }

/-- Dumper output of a GPT disk with one basic-data and one vendor-GUID
partition. -/
def gptTwoPartEnv : DiskEnv :=
  { baseDiskEnv with sgdiskOutput :=
      [["DISK", "gpt"],
       ["PART", "1", "EBD0A0A2-B9E5-4433-87C0-68B6B72699C7", "1111AAAA"],
       ["PART", "2", "19A710A2-B3CA-11E4-B026-10604B889DCF", "2222BBBB"]] }

def cmdEnv0 : CmdEnv := { knownVolume := fun _ => false, opResult := 0 }

/-- An ntfs probe returning an empty UUID, with the mount table claiming
the target is already busy. -/
def ntfsBusyEnv : VolEnv :=
  { baseVolEnv with probeFsType := "ntfs", mountpointMounted := fun _ => true }

/-! ### Helper lemmas -/

theorem numCreated_append (l l' : List DEffect) :
    numCreated (l ++ l') = numCreated l + numCreated l' := by
  simp [numCreated, List.filter_append]

theorem creations_append (l l' : List DEffect) :
    creations (l ++ l') = creations l ++ creations l' := by
  simp [creations, List.filter_append]

theorem processLine_table_ne (env : DiskEnv) (d : DiskSt) (maxM : Int)
    (st : ScanSt) (line : List String) (h : st.table ≠ Table.kUnknown) :
    (processLine env d maxM st line).table ≠ Table.kUnknown := by
  unfold processLine
  repeat' split
  all_goals try simp_all
  all_goals repeat' split
  all_goals simp_all

theorem processLine_creations_of_unknown (env : DiskEnv) (d : DiskSt)
    (maxM : Int) (st : ScanSt) (line : List String)
    (h : st.table = Table.kUnknown) :
    creations (processLine env d maxM st line).events = creations st.events := by
  unfold processLine
  repeat' split
  all_goals try simp_all [creations_append, creations, DEffect.isCreation]
  all_goals repeat' split
  all_goals simp_all [creations_append, creations, DEffect.isCreation]

theorem processLine_foundParts_mono (env : DiskEnv) (d : DiskSt) (maxM : Int)
    (st : ScanSt) (line : List String) (h : st.foundParts = true) :
    (processLine env d maxM st line).foundParts = true := by
  unfold processLine
  repeat' split
  all_goals try simp_all
  all_goals repeat' split
  all_goals simp_all

theorem processLine_events_of_noParts (env : DiskEnv) (d : DiskSt) (maxM : Int)
    (st : ScanSt) (line : List String)
    (h : (processLine env d maxM st line).foundParts = false) :
    (processLine env d maxM st line).events = st.events := by
  unfold processLine
  unfold processLine at h
  repeat' split
  all_goals try simp_all
  all_goals repeat' split
  all_goals simp_all

theorem foldl_table_ne (env : DiskEnv) (d : DiskSt) (maxM : Int)
    (lines : List (List String)) :
    ∀ st : ScanSt, st.table ≠ Table.kUnknown →
      (lines.foldl (processLine env d maxM) st).table ≠ Table.kUnknown := by
  induction lines with
  | nil => intro st h; exact h
  | cons l ls ih =>
    intro st h
    exact ih _ (processLine_table_ne env d maxM st l h)

theorem foldl_foundParts_mono (env : DiskEnv) (d : DiskSt) (maxM : Int)
    (lines : List (List String)) :
    ∀ st : ScanSt, st.foundParts = true →
      (lines.foldl (processLine env d maxM) st).foundParts = true := by
  induction lines with
  | nil => intro st h; exact h
  | cons l ls ih =>
    intro st h
    exact ih _ (processLine_foundParts_mono env d maxM st l h)

theorem foldl_creations_of_unknown (env : DiskEnv) (d : DiskSt) (maxM : Int)
    (lines : List (List String)) :
    ∀ st : ScanSt,
      (lines.foldl (processLine env d maxM) st).table = Table.kUnknown →
      creations (lines.foldl (processLine env d maxM) st).events =
        creations st.events := by
  induction lines with
  | nil => intro st _; rfl
  | cons l ls ih =>
    intro st hfin
    have h1 : (processLine env d maxM st l).table = Table.kUnknown := by
      by_contra hne
      exact foldl_table_ne env d maxM ls _ hne hfin
    have h0 : st.table = Table.kUnknown := by
      by_contra hne
      exact processLine_table_ne env d maxM st l hne h1
    calc creations ((ls.foldl (processLine env d maxM)
            (processLine env d maxM st l)).events)
        = creations (processLine env d maxM st l).events := ih _ hfin
      _ = creations st.events :=
          processLine_creations_of_unknown env d maxM st l h0

theorem foldl_events_of_noParts (env : DiskEnv) (d : DiskSt) (maxM : Int)
    (lines : List (List String)) :
    ∀ st : ScanSt,
      (lines.foldl (processLine env d maxM) st).foundParts = false →
      (lines.foldl (processLine env d maxM) st).events = st.events := by
  induction lines with
  | nil => intro st _; rfl
  | cons l ls ih =>
    intro st hfin
    have h1 : (processLine env d maxM st l).foundParts = false := by
      by_contra hne
      have := foldl_foundParts_mono env d maxM ls (processLine env d maxM st l)
        (by revert hne; cases (processLine env d maxM st l).foundParts <;> simp)
      simp [this] at hfin
    calc (ls.foldl (processLine env d maxM) (processLine env d maxM st l)).events
        = (processLine env d maxM st l).events := ih _ hfin
      _ = st.events := processLine_events_of_noParts env d maxM st l h1

theorem doMountAt_rawPath (env : VolEnv) (v : PubVol) (evs : List MEffect) :
    (doMountAt env v evs).vol.rawPath = v.rawPath := by
  unfold doMountAt
  dsimp only
  repeat' split
  all_goals rfl

theorem opsLockedFrom_okFail (dep : Nat) (r : Int) (rest : List Action) :
    opsLockedFrom dep (okFailReply r :: rest) = opsLockedFrom dep rest := by
  unfold okFailReply
  split <;> rfl

/-! ### Claims -/

/-- C7: `format(fsType)` accepts only `"vfat"` or `"auto"`: for these it
wipes the first superblocks of the device and then formats it as FAT,
and for every other fsType it returns an unsupported-filesystem error
(`-EINVAL`) without wiping or formatting the device. -/
theorem C7_format_vfat_auto_only (env : VolEnv) (v : PubVol) (fsType : String) :
    ((fsType = "vfat" ∨ fsType = "auto") →
       (doFormat env v fsType).effects =
         [UEffect.wipeBlockDevice (volDevPath v), UEffect.vfatFormat (volDevPath v)] ∧
       (doFormat env v fsType).status =
         (if env.formatRes = 0 then 0 else -env.errnoVal)) ∧
    (fsType ≠ "vfat" → fsType ≠ "auto" →
       (doFormat env v fsType).status = -22 ∧
       (doFormat env v fsType).effects = []) := by
  constructor
  · rintro (h | h) <;> subst h <;>
      simp [doFormat] <;> split <;> simp_all
  · intro h1 h2
    simp [doFormat, h1, h2]

/-- Witness for C7 at `"vfat"` (accepted) and `"ext4"` (rejected). -/
theorem C7_witness :
    ((doFormat baseVolEnv baseVol "vfat").effects =
       [UEffect.wipeBlockDevice (volDevPath baseVol),
        UEffect.vfatFormat (volDevPath baseVol)]) ∧
    (doFormat baseVolEnv baseVol "ext4").status = -22 ∧
    (doFormat baseVolEnv baseVol "ext4").effects = [] :=
  ⟨((C7_format_vfat_auto_only baseVolEnv baseVol "vfat").1 (Or.inl rfl)).1,
   (C7_format_vfat_auto_only baseVolEnv baseVol "ext4").2 (by decide) (by decide)⟩

/-- C9: `doUnmount` always returns OK, for every volume state and
regardless of the outcomes of the kernel unmount, the fuse-helper kill
and the mount-point removal (none of which the source inspects), and
`mRawPath` is cleared unconditionally. -/
theorem C9_doUnmount_always_ok (hasVirtualCdrom : Bool) (v : PubVol) :
    (doUnmount hasVirtualCdrom v).status = 0 ∧
    (doUnmount hasVirtualCdrom v).vol.rawPath = "" := by
  constructor <;> rfl

/-- C8 as stated is false: the loop subsystem's `runCommand` invokes
`vm->mountloop` without ever acquiring the Volume Manager lock. -/
theorem C8_counterexample :
    (loopRunCommand cmdEnv0 ["loop", "mount", "/data/image.iso"]).any
        Action.isVmOp = true ∧
    opsLocked (loopRunCommand cmdEnv0 ["loop", "mount", "/data/image.iso"]) =
      false := by decide

/-- C8 (amended): every volume-subsystem command performs its manager
operations while holding the Volume Manager's coarse lock, but the
loop-subsystem commands never acquire that lock at all. -/
theorem C8_amended_lock_discipline (env : CmdEnv) (argv : List String) :
    opsLocked (volumeRunCommand env argv) = true ∧
    Action.acquireLock ∉ loopRunCommand env argv := by
  constructor
  · unfold volumeRunCommand
    split
    · rfl
    · unfold opsLocked volumeCmdBody
      dsimp only
      repeat' split
      all_goals simp [opsLockedFrom, opsLockedFrom_okFail]
  · unfold loopRunCommand
    dsimp only
    repeat' split
    all_goals simp

/-- C10: whenever `readPartitions` invokes the partition dumper it
broadcasts `DiskScanned` and clears `justPartitioned` before returning,
on the dumper-failure path as well as on success; only the optical-disk
short-circuit and the unsupported-major path skip the broadcast. -/
theorem C10_scan_broadcast (env : DiskEnv) (d : DiskSt) :
    (DEffect.sgdiskInvoked ∈ (readPartitions env d).events →
       DEffect.diskScanned ∈ (readPartitions env d).events ∧
       (readPartitions env d).justPartitioned = false) ∧
    (d.srdisk = true →
       DEffect.diskScanned ∉ (readPartitions env d).events) ∧
    (d.srdisk = false → int8ofInt (getMaxMinors env d.devMajor) < 0 →
       DEffect.diskScanned ∉ (readPartitions env d).events ∧
       DEffect.sgdiskInvoked ∉ (readPartitions env d).events) ∧
    (d.srdisk = false → ¬ int8ofInt (getMaxMinors env d.devMajor) < 0 →
       DEffect.diskScanned ∈ (readPartitions env d).events ∧
       (readPartitions env d).justPartitioned = false) := by
  by_cases hs : d.srdisk = true
  · simp [readPartitions, hs]
  · replace hs : d.srdisk = false := by revert hs; cases d.srdisk <;> simp
    by_cases hm : int8ofInt (getMaxMinors env d.devMajor) < 0
    · simp [readPartitions, hs, hm]
    · by_cases hg : env.sgdiskStatus = 0
      · simp [readPartitions, hs, hm, hg, scanInit]
      · simp [readPartitions, hs, hm, hg, scanInit]

/-- Witness for C10 on a SCSI disk with an empty dumper output. -/
theorem C10_witness :
    DEffect.diskScanned ∈ (readPartitions baseDiskEnv baseDisk).events ∧
    (readPartitions baseDiskEnv baseDisk).justPartitioned = false :=
  (C10_scan_broadcast baseDiskEnv baseDisk).2.2.2 rfl (by decide)

/-- C3: for every in-range PART record in MBR table mode (and outside the
just-physical-device branch), the scanner creates exactly one PUBLIC
volume regardless of the partition type byte — the listed FAT/NTFS types
and every other type byte alike. -/
theorem C3_mbr_any_type_creates (env : DiskEnv) (d : DiskSt) (maxM : Int)
    (st : ScanSt) (iTok tyTok : String) (rest : List String)
    (hstop : st.stopped = false) (htab : st.table = Table.kMbr)
    (hphys : env.justPhysical = none)
    (h1 : 1 ≤ strtol10 iTok) (h2 : strtol10 iTok ≤ maxM) :
    numCreated (processLine env d maxM st
        ("PART" :: iTok :: tyTok :: rest)).events
      = numCreated st.events + 1 := by
  have hcond : ¬(strtol10 iTok ≤ 0 ∨ maxM < strtol10 iTok) := by omega
  unfold processLine
  simp only [hstop, htab, hphys]
  simp [hcond]
  split <;> simp [numCreated_append, numCreated, DEffect.isCreation]

/-- Witness for C3 on type byte `0x83` (Linux), which is outside the
listed MBR types and still yields a volume. -/
theorem C3_witness :
    numCreated (processLine baseDiskEnv baseDisk 31
        { table := Table.kMbr, foundParts := true, events := [],
          stopped := false }
        ["PART", "1", "83"]).events
      = numCreated ([] : List DEffect) + 1 :=
  C3_mbr_any_type_creates baseDiskEnv baseDisk 31
    { table := Table.kMbr, foundParts := true, events := [], stopped := false }
    "1" "83" [] rfl rfl rfl (by decide) (by decide)

/-- C4: for every in-range PART record in GPT table mode, a PUBLIC volume
is created if and only if the type GUID equals the basic-data GUID under
case-insensitive comparison; and the two-partition GPT scenario (one
basic-data, one vendor GUID) yields exactly one created volume. -/
theorem C4_gpt_basic_data_iff :
    (∀ (env : DiskEnv) (d : DiskSt) (maxM : Int) (st : ScanSt)
       (iTok tyGuid : String) (rest : List String),
       st.stopped = false → st.table = Table.kGpt →
       1 ≤ strtol10 iTok → strtol10 iTok ≤ maxM →
       (processLine env d maxM st ("PART" :: iTok :: tyGuid :: rest)).events =
         st.events ++
           (if strcaseEq tyGuid kGptBasicData then
              [DEffect.volumeCreated d.devMajor
                 (d.devMinor + (strtol10 iTok).toNat)]
            else [])) ∧
    numCreated (readPartitions gptTwoPartEnv baseDisk).events = 1 := by
  constructor
  · intro env d maxM st iTok tyGuid rest hstop htab h1 h2
    have hcond : ¬(strtol10 iTok ≤ 0 ∨ maxM < strtol10 iTok) := by omega
    unfold processLine
    simp only [hstop, htab]
    simp [hcond]
    split <;> simp_all
  · decide

/-- Witness for C4 on a lowercase spelling of the basic-data GUID. -/
theorem C4_witness :
    (processLine baseDiskEnv baseDisk 31
        { table := Table.kGpt, foundParts := true, events := [],
          stopped := false }
        ["PART", "2", "ebd0a0a2-b9e5-4433-87c0-68b6b72699c7", "x"]).events =
      [] ++
        (if strcaseEq "ebd0a0a2-b9e5-4433-87c0-68b6b72699c7" kGptBasicData then
           [DEffect.volumeCreated baseDisk.devMajor
              (baseDisk.devMinor + (strtol10 "2").toNat)]
         else []) :=
  C4_gpt_basic_data_iff.1 baseDiskEnv baseDisk 31
    { table := Table.kGpt, foundParts := true, events := [], stopped := false }
    "2" "ebd0a0a2-b9e5-4433-87c0-68b6b72699c7" ["x"]
    rfl rfl (by decide) (by decide)

/-- C5: a PART index is accepted only when `1 ≤ i ≤ maxMinors` — every
out-of-range index is warned about and skipped without creating a
volume — and `getMaxMinors` is 31 for the SCSI majors, the sysfs value
for the MMC major, and 15 for virtio-blk; the `int8_t` truncation used
by `readPartitions` is the identity on `0..127`. -/
theorem C5_index_budget :
    (∀ (env : DiskEnv) (d : DiskSt) (maxM : Int) (st : ScanSt)
       (iTok : String) (rest : List String),
       st.stopped = false →
       (strtol10 iTok ≤ 0 ∨ maxM < strtol10 iTok) →
       processLine env d maxM st ("PART" :: iTok :: rest) =
         { st with foundParts := true,
                   events := st.events ++
                     [DEffect.warnIgnoredPart (strtol10 iTok)] }) ∧
    (∀ (env : DiskEnv) (m : Nat), isScsiMajor m = true →
       getMaxMinors env m = 31) ∧
    (∀ (env : DiskEnv) (s : String), env.mmcMinorsFile = some s →
       getMaxMinors env 179 = atoi s) ∧
    (∀ (env : DiskEnv) (m : Nat), env.runningInEmulator = true →
       240 ≤ m → m ≤ 254 → getMaxMinors env m = 15) ∧
    (∀ x : Int, 0 ≤ x → x ≤ 127 → int8ofInt x = x) := by
  refine ⟨?_, ?_, ?_, ?_, ?_⟩
  · intro env d maxM st iTok rest hstop hout
    unfold processLine
    simp only [hstop]
    simp [hout]
  · intro env m h
    simp [getMaxMinors, h]
  · intro env s h
    simp [getMaxMinors, isScsiMajor, h]
  · intro env m hemu h1 h2
    have hs : isScsiMajor m = false := by
      simp only [isScsiMajor, Bool.or_eq_false_iff, beq_eq_false_iff_ne, ne_eq]
      omega
    have h179 : (m == 179) = false := by
      simp only [beq_eq_false_iff_ne, ne_eq]
      omega
    simp [getMaxMinors, hs, h179, isVirtioBlkDevice, hemu, h1, h2]
  · intro x h1 h2
    have : x % 256 = x := Int.emod_eq_of_lt h1 (by omega)
    simp [int8ofInt, this]
    omega

/-- Witness for C5: index 40 is skipped on a SCSI budget of 31, and the
budgets evaluate to 31 / sysfs value / 15. -/
theorem C5_witness :
    (processLine baseDiskEnv baseDisk 31 scanInit ["PART", "40", "0c"] =
       { scanInit with foundParts := true,
                       events := scanInit.events ++
                         [DEffect.warnIgnoredPart (strtol10 "40")] }) ∧
    getMaxMinors baseDiskEnv 8 = 31 ∧
    getMaxMinors baseDiskEnv 179 = atoi "8" ∧
    getMaxMinors { baseDiskEnv with runningInEmulator := true } 253 = 15 ∧
    int8ofInt 31 = 31 :=
  ⟨C5_index_budget.1 baseDiskEnv baseDisk 31 scanInit "40" ["0c"] rfl
     (Or.inr (by decide)),
   C5_index_budget.2.1 baseDiskEnv 8 (by decide),
   C5_index_budget.2.2.1 baseDiskEnv "8" rfl,
   C5_index_budget.2.2.2.1 { baseDiskEnv with runningInEmulator := true } 253
     rfl (by decide) (by decide),
   C5_index_budget.2.2.2.2 31 (by decide) (by decide)⟩

/-- C6: when the parsed table mode is UNKNOWN or no PART record appeared
(outside the just-physical-device branch), `readPartitions` probes the
whole disk: a successful probe creates exactly one whole-disk PUBLIC
volume with the disk's own `(major, minor)`, a failed probe creates no
volume, and the function returns success either way. -/
theorem C6_unknown_table_fallback (env : DiskEnv) (d : DiskSt)
    (hsr : d.srdisk = false)
    (hmm : ¬ int8ofInt (getMaxMinors env d.devMajor) < 0)
    (hsg : env.sgdiskStatus = 0)
    (hphys : env.justPhysical = none)
    (hu : (scanRun env d).table = Table.kUnknown ∨
          (scanRun env d).foundParts = false) :
    (readPartitions env d).status = 0 ∧
    (env.wholeDiskProbeOk = true →
       creations (readPartitions env d).events =
         [DEffect.volumeCreated d.devMajor d.devMinor]) ∧
    (env.wholeDiskProbeOk = false →
       creations (readPartitions env d).events = []) := by
  have hcre : creations (scanRun env d).events = [] := by
    rcases hu with h | h
    · have h2 := foldl_creations_of_unknown env d
        (int8ofInt (getMaxMinors env d.devMajor)) env.sgdiskOutput scanInit h
      have h3 : creations scanInit.events = [] := by decide
      rw [scanRun] at *
      rw [h2, h3]
    · have h2 := foldl_events_of_noParts env d
        (int8ofInt (getMaxMinors env d.devMajor)) env.sgdiskOutput scanInit h
      rw [scanRun] at *
      rw [h2]
      decide
  have htab : ((scanRun env d).table == Table.kUnknown ||
      !(scanRun env d).foundParts) = true := by
    rcases hu with h | h <;> simp [h]
  refine ⟨?_, ?_, ?_⟩
  · simp [readPartitions, hsr, hmm, hsg]
  · intro hp
    simp [readPartitions, hsr, hmm, hsg, htab, hphys, hp,
          creations_append, creations, DEffect.isCreation] at hcre ⊢
    exact hcre
  · intro hp
    simp [readPartitions, hsr, hmm, hsg, htab, hphys, hp,
          creations_append, creations, DEffect.isCreation] at hcre ⊢
    exact hcre

/-- Witness for C6: a disk whose dumper output has no recognised table
line, with a successful whole-disk probe. -/
theorem C6_witness :
    (readPartitions { baseDiskEnv with sgdiskOutput := [["DISK", "weird"]] }
        baseDisk).status = 0 ∧
    creations (readPartitions
        { baseDiskEnv with sgdiskOutput := [["DISK", "weird"]] }
        baseDisk).events =
      [DEffect.volumeCreated baseDisk.devMajor baseDisk.devMinor] :=
  ⟨(C6_unknown_table_fallback
      { baseDiskEnv with sgdiskOutput := [["DISK", "weird"]] } baseDisk
      rfl (by decide) rfl rfl (Or.inl (by decide))).1,
   (C6_unknown_table_fallback
      { baseDiskEnv with sgdiskOutput := [["DISK", "weird"]] } baseDisk
      rfl (by decide) rfl rfl (Or.inl (by decide))).2.1 rfl⟩

/-- C1 as stated is false: `readMetadata` replaces an empty probed UUID
with `"fakeUuid"` before the stable name is computed, so a volume whose
probe yields an empty UUID is mounted at `/mnt/media_rw/fakeUuid`, not
at `/mnt/media_rw/<id>`. -/
theorem C1_counterexample :
    (doMount { baseVolEnv with probeFsType := "ntfs" } baseVol).vol.rawPath =
        "/mnt/media_rw/fakeUuid" ∧
    (doMount { baseVolEnv with probeFsType := "ntfs" } baseVol).vol.rawPath ≠
        "/mnt/media_rw/" ++ getId baseVol := by decide

/-- C1 (amended): on every `doMount` path that reaches the mount-point
computation, `rawPath = "/mnt/media_rw/<stableName>"` where stableName
is the probed UUID when non-empty, and otherwise the substitute UUID
installed by `readMetadata` — `"sr0"` for major-11 devices, `"fakeUuid"`
for all others; the volume id is never used. -/
theorem C1_rawPath_stable_name (env : VolEnv) (v : PubVol)
    (hsupp : (env.probeFsType == "vfat" || env.probeFsType == "ntfs" ||
              env.probeFsType == "exfat" || extPre env.probeFsType ||
              env.probeFsType == "hfs" || env.probeFsType == "iso9660" ||
              env.probeFsType == "udf") = true)
    (hvfat : env.probeFsType = "vfat" → v.justPhysicalDev = true) :
    (doMount env v).vol.rawPath =
      "/mnt/media_rw/" ++
        (if env.probeUuid = "" then
           (if v.devMajor = 11 then "sr0" else "fakeUuid")
         else env.probeUuid) := by
  unfold doMount readMetadata
  dsimp only
  repeat' split
  all_goals simp_all [doMountAt_rawPath]

/-- Witness for C1 (amended): an ntfs volume with an empty probed UUID
gets `/mnt/media_rw/fakeUuid`. -/
theorem C1_witness :
    (doMount ntfsBusyEnv baseVol).vol.rawPath =
      "/mnt/media_rw/" ++
        (if ntfsBusyEnv.probeUuid = ""
         then (if baseVol.devMajor = 11 then "sr0" else "fakeUuid")
         else ntfsBusyEnv.probeUuid) :=
  C1_rawPath_stable_name ntfsBusyEnv baseVol (by decide)
    (fun h => absurd h (by decide))

/-- C2 as stated is false: on a non-physical vfat volume `doMount`
returns success immediately after the metadata broadcasts — it neither
sleeps nor checks `rawPath` for an existing kernel mount. -/
theorem C2_counterexample :
    (doMount baseVolEnv baseVol).status = 0 ∧
    MEffect.sleep ∉ (doMount baseVolEnv baseVol).effects ∧
    (doMount baseVolEnv baseVol).effects =
      [MEffect.broadcast RCode.volumeFsTypeChanged "vfat",
       MEffect.broadcast RCode.volumeFsUuidChanged "fakeUuid",
       MEffect.broadcast RCode.volumeFsLabelChanged ""] := by decide

/-- C2 (amended): if the probed fsType is `"vfat"` and the volume is not
a physical-only device, `doMount` returns success without mounting: no
sleep, no mount-point check, no helper invocation — the only effects
are the metadata broadcasts. The guard is the per-volume
`mJustPhysicalDev` field; there is no process-wide flag and no sleep. -/
theorem C2_vfat_immediate_ok (env : VolEnv) (v : PubVol)
    (hft : env.probeFsType = "vfat") (hjp : v.justPhysicalDev = false) :
    (doMount env v).status = 0 ∧
    ∀ e ∈ (doMount env v).effects, e.isBroadcast = true := by
  unfold doMount readMetadata
  dsimp only
  repeat' split
  all_goals simp_all [MEffect.isBroadcast]

/-- Witness for C2 (amended). -/
theorem C2_witness :
    (doMount { baseVolEnv with probeLabel := "STICK" } baseVol).status = 0 ∧
    ∀ e ∈ (doMount { baseVolEnv with probeLabel := "STICK" } baseVol).effects,
      e.isBroadcast = true :=
  C2_vfat_immediate_ok { baseVolEnv with probeLabel := "STICK" } baseVol
    rfl rfl

end Droidvold
